import Mathlib

/-!
Verification of the HTTP request layer of `nuxt-shadcn-dashboard`
(`src/app/apis/config.ts` — URL resolver — and `src/app/apis/request.ts` —
request dispatcher, response normalization, download helper).

Strings are modelled as lists of characters (`Str`), so that the string
operations of the source (`startsWith`, `replace(/\/$/,'')`, `includes`,
concatenation, the falsiness of the empty string under `||`) become
structurally analyzable list operations.

JavaScript runtime values that can appear as a response body are modelled by
the inductive `JsVal`; the side effect of `toast.error` is modelled by
returning the list of toast messages emitted, and `throw` by `Except`.
-/

/-- Strings as character lists. -/
abbrev Str := List Char

/-- Conversion from a Lean string literal to the `Str` model. -/
def str (s : String) : Str := s.data

/-- JavaScript `a || b` on strings: the empty string is falsy. -/
def strOr (m d : Str) : Str := if m.isEmpty then d else m

/-- JavaScript `hay.includes(needle)` (substring containment). -/
def containsSub (needle hay : Str) : Bool :=
  hay.tails.any fun t => needle.isPrefixOf t

/- ===== src/app/apis/config.ts ===== -/

/-- `API_CONFIG.baseURL` from `config.ts` (overridable by deployment,
hence the resolver below is parameterized by the base). -/
def API_CONFIG_baseURL : Str := str "http://192.168.57.9:8000"

/-- `API_CONFIG.timeout` from `config.ts`. -/
def API_CONFIG_timeout : Nat := 30 * 1000

/-- `baseURL.replace(/\/$/, '')`: the regex `/\/$/` matches a single
trailing slash, so exactly one trailing `'/'` is removed if present. -/
def stripTrailingSlash (s : Str) : Str :=
  if s.getLast? = some '/' then s.dropLast else s

/-- `const url = path.startsWith('/') ? path : '/' + path` from `getApiUrl`. -/
def ensureLeadingSlash (path : Str) : Str :=
  if (str "/").isPrefixOf path then path else '/' :: path

/-- `getApiUrl` from `config.ts`, parameterized by the configured base URL
(the source reads `API_CONFIG.baseURL`, which deployments may override). -/
def getApiUrl (baseURL path : Str) : Str :=
  if (str "http://").isPrefixOf path || (str "https://").isPrefixOf path then
    path
  else
    stripTrailingSlash baseURL ++ ensureLeadingSlash path

/-- Remove every leading slash (used only to state the spec's join
property, not by the embedded code). -/
def lstripSlashes (s : Str) : Str := s.dropWhile fun c => c == '/'

/-- Remove every trailing slash (used only to state the spec's join
property, not by the embedded code). -/
def rstripSlashes (s : Str) : Str := (lstripSlashes s.reverse).reverse

/-- The spec's join property for the resolver: the produced URL is the base
with its trailing separators stripped, then exactly one separating slash,
then the path with its leading slashes stripped — so the join point has
exactly one slash, never zero and never two. -/
def oneSlashJoin (base path : Str) : Prop :=
  getApiUrl base path = rstripSlashes base ++ '/' :: lstripSlashes path

/- ===== src/app/apis/request.ts : data model ===== -/

/-- Outcome of `JSON.parse(await blob.text())` followed by reading
`.success` (truthiness) and `.msg` (string, `[]` when absent/empty) on the
parsed value: `noParse` covers a parse exception and also a parsed `null`
(whose property access throws inside the same `try`). -/
inductive BlobContent where
  | noParse
  | parsed (success : Bool) (msg : Str)
deriving DecidableEq

/-- The `code` field of an envelope: a number, a string, or absent. -/
inductive JsCode where
  | num (n : Int)
  | strv (s : Str)
  | absent
deriving DecidableEq

/-- A JavaScript value appearing as a response body (`response._data`):
`nullish` (null/undefined), a non-object primitive, a `Blob` (with its MIME
`type` and the parse outcome of its text), an object without a `success`
property, or an object with a `success` property (the envelope shape).
`hasSkipKey` records whether the object has a `skipResponseInterceptor`
property, which line 97 of `request.ts` tests with `in`. -/
inductive JsVal where
  | nullish
  | prim (id : Nat)
  | blob (btype : Str) (content : BlobContent)
  | objPlain (hasSkipKey : Bool) (id : Nat)
  | objEnv (hasSkipKey : Bool) (success : Bool) (code : JsCode) (msg : Str) (dataVal : JsVal)
deriving DecidableEq

/-- `data && typeof data === 'object'`: Blobs and plain objects are truthy
objects; null/undefined is falsy; primitives are not objects. -/
def isObjTruthy : JsVal → Bool
  | .nullish => false
  | .prim _ => false
  | .blob _ _ => true
  | .objPlain _ _ => true
  | .objEnv _ _ _ _ _ => true

/-- `'skipResponseInterceptor' in data` (false for Blobs and primitives). -/
def hasSkipProp : JsVal → Bool
  | .objPlain k _ => k
  | .objEnv k _ _ _ _ => k
  | _ => false

/-- `data instanceof Blob`. -/
def isBlobVal : JsVal → Bool
  | .blob _ _ => true
  | _ => false

/-- A raw HTTP response as seen by `handleResponse`: the `content-type`
header (if present) and the parsed body `response._data`. -/
structure Resp where
  contentType : Option Str
  rdata : JsVal
deriving DecidableEq

/-- `response.headers.get('content-type')?.includes('application/octet-stream')`
(optional chaining: a missing header yields false). -/
def includesOctet : Option Str → Bool
  | none => false
  | some s => containsSub (str "application/octet-stream") s

/-- `handleError(msg)` calls `toast.error(msg || '服务器端错误')`; this is the
toast message it emits. -/
def handleError (msg : Str) : Str := strOr msg (str "服务器端错误")

/-- The `StatusCodeMessage` table from `request.ts`. -/
def StatusCodeMessage : Int → Option Str
  | 200 => some (str "服务器成功返回请求的数据")
  | 201 => some (str "新建或修改数据成功。")
  | 202 => some (str "一个请求已经进入后台排队（异步任务）")
  | 204 => some (str "删除数据成功")
  | 400 => some (str "请求错误(400)")
  | 401 => some (str "未授权，请重新登录(401)")
  | 403 => some (str "拒绝访问(403)")
  | 404 => some (str "请求出错(404)")
  | 408 => some (str "请求超时(408)")
  | 500 => some (str "服务器错误(500)")
  | 501 => some (str "服务未实现(501)")
  | 502 => some (str "网络错误(502)")
  | 503 => some (str "服务不可用(503)")
  | 504 => some (str "网络超时(504)")
  | _ => none

/-- The synthetic success envelope
`{ success: true, code: 200, msg: 'success', data }`. -/
def wrapSuccess (d : JsVal) : JsVal :=
  .objEnv false true (.num 200) (str "success") d

/-- `handleResponse` from `request.ts` (lines 96–158), returned as the pair
(toast messages emitted, `Except` thrown-message / returned value).

Note two behaviors taken directly from the source:
* line 97 tests `'skipResponseInterceptor' in data` on the BODY and returns
  it raw when present;
* in the blob branch, the `throw new Error(...)` at line 113 sits inside the
  `try` whose bare `catch` (line 117) swallows it, so a JSON error blob
  notifies and then falls through to the success envelope. -/
def handleResponse (response : Resp) : List Str × Except Str JsVal :=
  let data := response.rdata
  if isObjTruthy data && hasSkipProp data then
    ([], .ok data)
  else if includesOctet response.contentType || isBlobVal data then
    let notes :=
      match data with
      | .blob btype content =>
        if (str "application/json").isPrefixOf btype then
          match content with
          | .parsed s m => if !s then [handleError (strOr m (str "下载失败"))] else []
          | .noParse => []
        else []
      | _ => []
    (notes, .ok (wrapSuccess data))
  else
    match data with
    | .objEnv k s c m d =>
      if !s then
        let note :=
          if c == JsCode.strv (str "401") || c == JsCode.num 401 then
            handleError (strOr m (str "未授权，请重新登录"))
          else
            handleError (strOr m (str "请求失败"))
        ([note], .error (strOr m (str "请求失败")))
      else
        ([], .ok (.objEnv k s c m d))
    | _ => ([], .ok (wrapSuccess data))

/-- The error `request` rethrows to its caller: an `Error` thrown by
`handleResponse`, a fetch error carrying a response status, or a network
error without a response. -/
inductive JsError where
  | fromHandler (msg : Str)
  | http (status : Int)
  | net (msg : Str)
deriving DecidableEq

/-- The shape of a caught error as the `catch` block of `request`
discriminates it: `error.response` present (with its status), or not
(with `error.message`, `[]` when falsy/absent). -/
inductive CaughtShape where
  | withResponse (status : Int)
  | plain (message : Str)

/-- The `catch` block of `request` (lines 186–207): the toast messages it
emits. Errors with a response use the status table (with fallback); errors
with a truthy message are re-notified unless the message contains one of the
already-notified markers `请求失败` / `下载失败`; messageless errors get the
generic connectivity message. -/
def catchNotes (skipErrorHandler : Bool) (e : CaughtShape) : List Str :=
  if skipErrorHandler then []
  else
    match e with
    | .withResponse status =>
      [handleError ((StatusCodeMessage status).getD
        (str "服务器暂时未响应，请刷新页面并重试。若无法解决，请联系管理员"))]
    | .plain msg =>
      if !msg.isEmpty then
        if !containsSub (str "请求失败") msg && !containsSub (str "下载失败") msg then
          [handleError (strOr msg (str "网络连接失败，请检查您的网络"))]
        else []
      else [handleError (str "网络连接失败，请检查您的网络")]

/-- The per-call configuration fields of `RequestConfig` that affect the
modelled behavior. -/
structure RequestConfig where
  url : Str
  skipErrorHandler : Bool := false
  skipResponseInterceptor : Bool := false
deriving DecidableEq

/-- Outcome of the `$fetch.raw` call: resolves with a response, rejects with
an error carrying a response status (non-2xx), or rejects with a plain
network error (message `[]` when absent). -/
inductive FetchOutcome where
  | ok (response : Resp)
  | httpErr (status : Int)
  | netErr (message : Str)

/-- `request` from `request.ts` (lines 163–209), as a function of the per-call
configuration and the transport outcome: the pair (toast messages emitted,
`Except` rethrown-error / value returned to the caller). -/
def request (cfg : RequestConfig) (outcome : FetchOutcome) : List Str × Except JsError JsVal :=
  match outcome with
  | .ok response =>
    if cfg.skipResponseInterceptor then
      ([], .ok (wrapSuccess response.rdata))
    else
      match handleResponse response with
      | (notes, .ok v) => (notes, .ok v)
      | (notes, .error m) =>
        (notes ++ catchNotes cfg.skipErrorHandler (.plain m), .error (.fromHandler m))
  | .httpErr status =>
    (catchNotes cfg.skipErrorHandler (.withResponse status), .error (.http status))
  | .netErr msg =>
    (catchNotes cfg.skipErrorHandler (.plain msg), .error (.net msg))

/-- `response.success` read off an arbitrary returned value (undefined, hence
falsy, when the value is not an envelope-shaped object). -/
def jsSuccess : JsVal → Bool
  | .objEnv _ s _ _ _ => s
  | _ => false

/-- `response.data` read off an arbitrary returned value (undefined when the
value is not an envelope-shaped object). -/
def jsDataField : JsVal → JsVal
  | .objEnv _ _ _ _ d => d
  | _ => .nullish

/-- Whether a returned value has the normalized envelope shape
`{success, code, msg, data}`. -/
def isEnvelopeShaped : JsVal → Bool
  | .objEnv _ _ _ _ _ => true
  | _ => false

/-- Observable outcome of a `download` call: the filenames of the file-save
triggers fired (`link.download` at the `link.click()`), the toast messages
emitted, and whether the promise resolved or rejected. -/
structure DownloadResult where
  saves : List Str
  notes : List Str
  result : Except JsError Unit

/-- `download` from `request.ts` (lines 274–300): calls `request` with
`skipResponseInterceptor: true`, then saves the blob under
`filename || 'download'` exactly when `response.success && response.data
instanceof Blob`; a caught error is logged and rethrown. -/
def download (url filename : Str) (outcome : FetchOutcome) : DownloadResult :=
  match request { url := url, skipResponseInterceptor := true } outcome with
  | (notes, .ok v) =>
    if jsSuccess v && isBlobVal (jsDataField v) then
      { saves := [strOr filename (str "download")], notes := notes, result := .ok () }
    else
      { saves := [], notes := notes, result := .ok () }
  | (notes, .error e) =>
    { saves := [], notes := notes, result := .error e }

/-- The toast messages attributable to response interpretation alone (the
`handleResponse` phase), used to state the amended bypass-flag claim. -/
def interceptorNotes (cfg : RequestConfig) (o : FetchOutcome) : List Str :=
  match o with
  | .ok r => if cfg.skipResponseInterceptor then [] else (handleResponse r).1
  | .httpErr _ => []
  | .netErr _ => []

/- ===== helper lemmas ===== -/

/-- A list whose head is not a slash is unchanged by dropping leading slashes. -/
theorem dropWhileSlash_of_head (l : Str) (h : l.head? ≠ some '/') :
    (l.dropWhile fun c => c == '/') = l := by
  cases l with
  | nil => rfl
  | cons c t =>
    have hc : c ≠ '/' := by
      intro he
      exact h (by simp [he])
    simp [List.dropWhile_cons, hc]

/-- A list not ending in a slash is unchanged by stripping trailing slashes. -/
theorem rstripSlashes_of_getLast (l : Str) (h : l.getLast? ≠ some '/') :
    rstripSlashes l = l := by
  unfold rstripSlashes lstripSlashes
  rw [dropWhileSlash_of_head l.reverse (by rw [List.head?_reverse]; exact h)]
  exact List.reverse_reverse l

/-- When removing one trailing slash already leaves no trailing slash,
the source's single-slash strip agrees with stripping all trailing slashes. -/
theorem rstripSlashes_strip (base : Str)
    (h : (stripTrailingSlash base).getLast? ≠ some '/') :
    rstripSlashes base = stripTrailingSlash base := by
  by_cases hb : base.getLast? = some '/'
  · have h1 : base.reverse.head? = some '/' := by rw [List.head?_reverse]; exact hb
    obtain ⟨t, ht⟩ : ∃ t, base.reverse = '/' :: t := by
      cases hr : base.reverse with
      | nil => rw [hr] at h1; simp at h1
      | cons a u =>
        rw [hr] at h1
        simp at h1
        exact ⟨u, by rw [h1]⟩
    have hdl : base.dropLast = t.reverse := by
      have hbase : base = t.reverse ++ ['/'] := by
        have h2 := congrArg List.reverse ht
        simpa using h2
      rw [hbase, List.dropLast_concat]
    have hth : t.head? ≠ some '/' := by
      rw [stripTrailingSlash, if_pos hb, hdl] at h
      rwa [← List.head?_reverse, List.reverse_reverse] at h
    rw [stripTrailingSlash, if_pos hb, hdl]
    unfold rstripSlashes lstripSlashes
    rw [ht, List.dropWhile_cons]
    simp only [beq_self_eq_true, if_pos]
    rw [dropWhileSlash_of_head t hth]
  · rw [stripTrailingSlash, if_neg hb]
    refine rstripSlashes_of_getLast base ?_
    rwa [stripTrailingSlash, if_neg hb] at h

/-- On a path that does not begin with a double slash, the source's
leading-slash normalization yields exactly one leading slash. -/
theorem ensureLeadingSlash_eq (path : Str)
    (hp : (str "//").isPrefixOf path = false) :
    ensureLeadingSlash path = '/' :: lstripSlashes path := by
  cases path with
  | nil => rfl
  | cons c t =>
    by_cases hc : c = '/'
    · subst hc
      have hpre : (str "/").isPrefixOf ('/' :: t) = true := by
        simp [str, List.isPrefixOf]
      have hth : t.head? ≠ some '/' := by
        cases t with
        | nil => simp
        | cons d u =>
          have : ('/' == d) = false := by
            simpa [str, List.isPrefixOf] using hp
          simp only [List.head?, ne_eq, Option.some.injEq]
          intro he
          rw [he] at this
          simp at this
      rw [ensureLeadingSlash, if_pos hpre]
      unfold lstripSlashes
      rw [List.dropWhile_cons]
      simp only [beq_self_eq_true, if_pos]
      rw [dropWhileSlash_of_head t hth]
    · have hpre : (str "/").isPrefixOf (c :: t) = false := by
        have : ('/' == c) = false := by
          simp only [beq_eq_false_iff_ne, ne_eq]
          exact fun he => hc he.symm
        simp [str, List.isPrefixOf, this]
      rw [ensureLeadingSlash, if_neg (by rw [hpre]; exact Bool.false_ne_true)]
      unfold lstripSlashes
      rw [dropWhileSlash_of_head (c :: t) (by simp [hc])]

/- ===== claim theorems ===== -/

/-- Claim C5 (counterexample): the claim "for every base address and every
path, the URL produced by the Resolver has exactly one slash at the join
point" fails: `replace(/\/$/,'')` strips only ONE trailing slash, so the
base `"http://h//"` joined with `"p"` yields `"http://h//p"` — a double
slash at the join point. -/
theorem c5_counterexample :
    getApiUrl (str "http://h//") (str "p") = str "http://h//p" ∧
    ¬ oneSlashJoin (str "http://h//") (str "p") := by
  constructor
  · decide
  · unfold oneSlashJoin
    decide

/-- Claim C5 (amended): for every base that does not end in a double slash
(equivalently, whose single-trailing-slash strip leaves no trailing slash)
and every non-absolute path that does not begin with a double slash, the
resolver output is exactly the slash-stripped base, one separating slash,
and the slash-stripped path — one slash at the join point, never zero and
never two. -/
theorem c5_amended_join (base path : Str)
    (habs : ((str "http://").isPrefixOf path || (str "https://").isPrefixOf path) = false)
    (hb : (stripTrailingSlash base).getLast? ≠ some '/')
    (hp : (str "//").isPrefixOf path = false) :
    oneSlashJoin base path := by
  unfold oneSlashJoin getApiUrl
  rw [if_neg (by rw [habs]; exact Bool.false_ne_true)]
  rw [rstripSlashes_strip base hb, ensureLeadingSlash_eq path hp]

/-- Witness for the amended claim C5 at a concrete base and path. -/
theorem c5_amended_witness : oneSlashJoin (str "http://x/") (str "api") :=
  c5_amended_join (str "http://x/") (str "api") (by decide) (by decide) (by decide)

/-- Claim C6: a path that already begins with `http://` or `https://` is
returned unchanged by the resolver, for every base. -/
theorem c6_scheme_path_unchanged (base path : Str)
    (h : ((str "http://").isPrefixOf path || (str "https://").isPrefixOf path) = true) :
    getApiUrl base path = path := by
  unfold getApiUrl
  rw [if_pos h]

/-- Witness for claim C6 at a concrete absolute path. -/
theorem c6_witness : getApiUrl (str "base") (str "https://a/b") = str "https://a/b" :=
  c6_scheme_path_unchanged (str "base") (str "https://a/b") (by decide)

/-- Claim C2 (code bug): a byte-stream response whose blob is a JSON body
with `success: false` is claimed to notify and FAIL; in the source the
`throw new Error(...)` sits inside the `try` whose bare `catch` — intended,
per its comment, only for `JSON.parse` failures — swallows it. At the
failing input the call notifies with the blob's message and then RETURNS a
success envelope wrapping the blob instead of raising. -/
theorem c2_json_error_blob_swallowed :
    request { url := str "/d" }
        (.ok { contentType := some (str "application/octet-stream"),
               rdata := .blob (str "application/json") (.parsed false (str "X")) }) =
      ([str "X"],
       .ok (wrapSuccess (.blob (str "application/json") (.parsed false (str "X"))))) := rfl

/-- Claim C3 (code bug): a structured `{success:false, msg:"M"}` body is
claimed to trigger exactly one notification containing "M"; the source's
duplicate-suppression heuristic in the `catch` of `request` only matches the
markers `请求失败`/`下载失败`, so the error thrown by `handleResponse` with
message "M" is notified a SECOND time. The call does raise an error
carrying "M". -/
theorem c3_duplicate_notification :
    request { url := str "/c" }
        (.ok { contentType := none,
               rdata := .objEnv false false (.num 500) (str "M") .nullish }) =
      ([str "M", str "M"], .error (.fromHandler (str "M"))) := rfl

/-- Claim C4 (code bug): callers are claimed to always receive the
normalized envelope shape unless the explicit bypass flag is set; but line
97 of `request.ts` tests `'skipResponseInterceptor' in data` on the RESPONSE
BODY and returns it raw, so a body that merely contains that key leaks
through unshaped with no bypass flag set. -/
theorem c4_raw_body_leaks :
    request { url := str "/b" } (.ok { contentType := none, rdata := .objPlain true 7 }) =
      ([], .ok (.objPlain true 7)) ∧
    isEnvelopeShaped (.objPlain true 7) = false := ⟨rfl, rfl⟩

/-- Claim C7: a structured envelope body with `success: true` (and a content
type that does not indicate a byte stream, which is the only way a parsed
object body arises) is returned unchanged — same envelope, same `data` —
with no notification, whatever its `code`, `msg`, `data` or extra keys. -/
theorem c7_success_envelope_unchanged (u : Str) (ct : Option Str) (k : Bool)
    (c : JsCode) (m : Str) (d : JsVal) (hct : includesOctet ct = false) :
    request { url := u } (.ok { contentType := ct, rdata := .objEnv k true c m d }) =
      ([], .ok (.objEnv k true c m d)) := by
  cases k <;>
    simp [request, handleResponse, isObjTruthy, hasSkipProp, isBlobVal, hct]

/-- Witness for claim C7 at a concrete successful envelope. -/
theorem c7_witness :
    includesOctet none = false ∧
    request { url := str "/z" }
        (.ok { contentType := none, rdata := .objEnv false true (.num 0) (str "") .nullish }) =
      ([], .ok (.objEnv false true (.num 0) (str "") .nullish)) :=
  ⟨rfl, c7_success_envelope_unchanged (str "/z") none false (.num 0) (str "") .nullish rfl⟩

/-- Claim C8 (code bug): a body that is neither a blob/byte-stream nor an
object with a `success` field is claimed to be wrapped into the synthetic
success envelope; but an object carrying a `skipResponseInterceptor` key is
returned raw by line 97 of `request.ts` instead of being wrapped. -/
theorem c8_skip_key_not_wrapped :
    request { url := str "/a" } (.ok { contentType := none, rdata := .objPlain true 0 }) =
      ([], .ok (.objPlain true 0)) ∧
    JsVal.objPlain true 0 ≠ wrapSuccess (.objPlain true 0) := ⟨rfl, by decide⟩

/-- Claim C1 (counterexample): with `skipErrorHandler: true` the claim says
NO notification is triggered on any kind of failure; but the flag only
gates the `catch` block of `request`, not the `handleError` calls inside
`handleResponse`, so a structured `success:false` body still notifies. -/
theorem c1_counterexample :
    (request { url := str "/e", skipErrorHandler := true }
        (.ok { contentType := none,
               rdata := .objEnv false false (.num 500) (str "N") .nullish })).1 = [str "N"] ∧
    (request { url := str "/e", skipErrorHandler := true }
        (.ok { contentType := none,
               rdata := .objEnv false false (.num 500) (str "N") .nullish })).2 =
      .error (.fromHandler (str "N")) ∧
    [str "N"] ≠ ([] : List Str) :=
  ⟨rfl, rfl, by decide⟩

/-- Claim C1 (amended): with `skipErrorHandler: true`, every notification
from the `catch` block of `request` is suppressed — the emitted toasts are
exactly those of the response interceptor (`handleResponse`), which the flag
does not reach — and the call still raises on every kind of failure:
transport/status failures, network errors, and errors thrown by
`handleResponse` are all rethrown to the caller. -/
theorem c1_amended_suppression (cfg : RequestConfig) (o : FetchOutcome)
    (h : cfg.skipErrorHandler = true) :
    (request cfg o).1 = interceptorNotes cfg o ∧
    (∀ s, o = .httpErr s → (request cfg o).2 = .error (.http s)) ∧
    (∀ m, o = .netErr m → (request cfg o).2 = .error (.net m)) ∧
    (∀ r m, o = .ok r → cfg.skipResponseInterceptor = false →
      (handleResponse r).2 = .error m → (request cfg o).2 = .error (.fromHandler m)) := by
  cases o with
  | ok r =>
    cases hsk : cfg.skipResponseInterceptor with
    | true =>
      refine ⟨by simp [request, interceptorNotes, hsk], ?_, ?_, ?_⟩
      · intro s hs; exact FetchOutcome.noConfusion hs
      · intro m hm; exact FetchOutcome.noConfusion hm
      · intro r' m h1 h2 h3
        exact absurd h2 (by simp)
    | false =>
      rcases hhr : handleResponse r with ⟨notes, res⟩
      cases res with
      | ok v =>
        refine ⟨by simp [request, interceptorNotes, hsk, hhr], ?_, ?_, ?_⟩
        · intro s hs; exact FetchOutcome.noConfusion hs
        · intro m hm; exact FetchOutcome.noConfusion hm
        · intro r' m h1 h2 h3
          injection h1 with he
          subst he
          rw [hhr] at h3
          exact Except.noConfusion h3
      | error m0 =>
        refine ⟨by simp [request, interceptorNotes, hsk, hhr, catchNotes, h], ?_, ?_, ?_⟩
        · intro s hs; exact FetchOutcome.noConfusion hs
        · intro m hm; exact FetchOutcome.noConfusion hm
        · intro r' m h1 h2 h3
          injection h1 with he
          subst he
          rw [hhr] at h3
          have hm0 : m0 = m := by
            simpa using h3
          subst hm0
          simp [request, hsk, hhr]
  | httpErr s0 =>
    refine ⟨by simp [request, interceptorNotes, catchNotes, h], ?_, ?_, ?_⟩
    · intro s hs
      injection hs with he
      subst he
      simp [request]
    · intro m hm; exact FetchOutcome.noConfusion hm
    · intro r' m h1 h2 h3; exact FetchOutcome.noConfusion h1
  | netErr msg0 =>
    refine ⟨by simp [request, interceptorNotes, catchNotes, h], ?_, ?_, ?_⟩
    · intro s hs; exact FetchOutcome.noConfusion hs
    · intro m hm
      injection hm with he
      subst he
      simp [request]
    · intro r' m h1 h2 h3; exact FetchOutcome.noConfusion h1

/-- Witness for the amended claim C1: with the flag set, a network error
emits no toast at all and is still rethrown. -/
theorem c1_amended_witness :
    (request { url := str "/w", skipErrorHandler := true } (.netErr (str "Q"))).1 = [] ∧
    (request { url := str "/w", skipErrorHandler := true } (.netErr (str "Q"))).2 =
      .error (.net (str "Q")) :=
  ⟨((c1_amended_suppression { url := str "/w", skipErrorHandler := true }
      (.netErr (str "Q")) rfl).1).trans rfl,
   (c1_amended_suppression { url := str "/w", skipErrorHandler := true }
      (.netErr (str "Q")) rfl).2.2.1 (str "Q") rfl⟩

/-- Claim C9: a download whose underlying request resolves with a Blob body
triggers exactly one file save, named by the given filename when one is
supplied and `"download"` otherwise (`filename || 'download'`), and the
call resolves without error and without notifications. -/
theorem c9_download_single_save (u fname : Str) (r : Resp)
    (h : isBlobVal r.rdata = true) :
    download u fname (.ok r) =
      { saves := [strOr fname (str "download")], notes := [], result := .ok () } := by
  simp [download, request, jsSuccess, jsDataField, wrapSuccess, h]

/-- Witness for claim C9: a concrete blob download with an explicit filename
saves exactly once under that filename. -/
theorem c9_witness :
    download (str "/dl") (str "report.csv")
        (.ok { contentType := none, rdata := .blob (str "x") .noParse }) =
      { saves := [str "report.csv"], notes := [], result := .ok () } := by
  rw [c9_download_single_save (str "/dl") (str "report.csv")
      { contentType := none, rdata := .blob (str "x") .noParse } rfl]
  rfl

/-- Claim C10: a download whose underlying request resolves but whose
wrapped payload is not a Blob resolves normally with no file save, no
notification and no raised error — a silent no-op at the public interface. -/
theorem c10_non_blob_noop (u fname : Str) (r : Resp)
    (h : isBlobVal r.rdata = false) :
    download u fname (.ok r) = { saves := [], notes := [], result := .ok () } := by
  simp [download, request, jsSuccess, jsDataField, wrapSuccess, h]

/-- Witness for claim C10 at a concrete non-Blob payload. -/
theorem c10_witness :
    download (str "/dl2") (str "") (.ok { contentType := none, rdata := .prim 3 }) =
      { saves := [], notes := [], result := .ok () } :=
  c10_non_blob_noop (str "/dl2") (str "") { contentType := none, rdata := .prim 3 } rfl
